import Mathlib

/-!
Shallow embedding of the MeshtasticHA integration
(`custom_components/meshtastic_usb/`): the connection/discovery/normalization
core from `connection.py`, the older scanner generation from `coordinator.py`,
the service-level validation from `__init__.py`, and the constants from
`const.py`.  Dictionaries produced by the device library are modelled by a
small Python-value type `PyVal` with Python truthiness, `x or y`, and
`dict.get` semantics.  Effectful transport acquisition and release are
modelled by explicit event traces (`Event`), with the outcome of each
external call supplied by an environment (`Env`).
-/

/-! ## Python value model -/

mutual

/-- A dynamically-typed Python value, as stored in the dictionaries that
`_protobuf_to_dict` produces and that the normalizers traverse. -/
inductive PyVal where
  | none
  | int (n : Int)
  | float (q : Rat)
  | str (s : String)
  | bool (b : Bool)
  | list (l : PyList)
  | dict (d : PyDict)
  deriving DecidableEq

/-- A Python list of `PyVal`s. -/
inductive PyList where
  | nil
  | cons (v : PyVal) (tl : PyList)
  deriving DecidableEq

/-- A Python dict with string keys (association list; keys are unique in any
dict produced by `_protobuf_to_dict`, and lookup returns the first match). -/
inductive PyDict where
  | nil
  | cons (k : String) (v : PyVal) (tl : PyDict)
  deriving DecidableEq

end

/-- Build a `PyList` from a Lean list. -/
def PyList.ofList : List PyVal → PyList
  | [] => .nil
  | v :: tl => .cons v (PyList.ofList tl)

/-- Build a `PyDict` from a Lean association list. -/
def PyDict.ofList : List (String × PyVal) → PyDict
  | [] => .nil
  | (k, v) :: tl => .cons k v (PyDict.ofList tl)

/-- Whether a Python list is empty. -/
def PyList.isEmpty : PyList → Bool
  | .nil => true
  | .cons _ _ => false

/-- Whether a Python dict is empty. -/
def PyDict.isEmpty : PyDict → Bool
  | .nil => true
  | .cons _ _ _ => false

/-- Python truthiness: `None`, `0`, `0.0`, `""`, `False`, `[]`, `{}` are
falsy; everything else is truthy. -/
def PyVal.truthy : PyVal → Bool
  | .none => false
  | .int n => n != 0
  | .float q => q != 0
  | .str s => s != ""
  | .bool b => b
  | .list l => ! l.isEmpty
  | .dict d => ! d.isEmpty

/-- Python `a or b`: `a` if `a` is truthy, else `b`. -/
def pyOr (a b : PyVal) : PyVal := if a.truthy then a else b

/-- Python `d.get(k)`: the stored value, or `None` when the key is absent. -/
def pyGet (d : PyDict) (k : String) : PyVal :=
  match d with
  | .nil => .none
  | .cons k' v tl => if k' = k then v else pyGet tl k

/-- Whether a key is present in a dict (regardless of its stored value). -/
def PyDict.hasKey (d : PyDict) (k : String) : Bool :=
  match d with
  | .nil => false
  | .cons k' _ tl => k' == k || tl.hasKey k

/-- Python `x or {}` followed by treating the result as a dict, as in
`(d.get("k") or {}).get(...)`.  A falsy value yields the empty dict; a
dict-shaped value is itself.  (A truthy non-dict value would make the
subsequent `.get` raise `AttributeError` in Python; both source files only
reach these accesses with dict-shaped or falsy values.) -/
def dictOrEmpty : PyVal → PyDict
  | .dict d => d
  | _ => .nil

/-- Python `dict.get(key)` on a dict keyed by arbitrary values, as used for
the known-node mapping `interface.nodes` (keyed by numeric node ids).
Returns `None` when the key is absent. -/
def assocGet (nodes : List (PyVal × PyVal)) (k : PyVal) : PyVal :=
  match nodes with
  | [] => .none
  | (k', v) :: tl => if k' = k then v else assocGet tl k

/-! ## String helpers (executable versions of the Python string operations) -/

/-- Whether `p` is a prefix of `cs` (char-list version of `str.startswith`). -/
def charsPrefix : List Char → List Char → Bool
  | [], _ => true
  | _ :: _, [] => false
  | p :: ps, c :: cs => p == c && charsPrefix ps cs

/-- Whether `pat` occurs as a contiguous run inside the char list
(the Python `pat in s` substring test). -/
def charsContains (pat : List Char) : List Char → Bool
  | [] => charsPrefix pat []
  | c :: cs => charsPrefix pat (c :: cs) || charsContains pat cs

/-- ASCII lower-casing of one character (`str.lower` restricted to ASCII; the
descriptions and the pattern `"virtualbox"` involved here are ASCII). -/
def asciiLower (c : Char) : Char :=
  if 'A' ≤ c ∧ c ≤ 'Z' then Char.ofNat (c.toNat + 32) else c

/-- ASCII `str.lower`. -/
def strLower (s : String) : String := String.mk (s.toList.map asciiLower)

/-- Python `s.startswith(pre)`. -/
def strStartsWith (s pre : String) : Bool := charsPrefix pre.toList s.toList

/-- Python `pat in s` (substring containment). -/
def strContainsSub (s pat : String) : Bool := charsContains pat.toList s.toList

/-- Python whitespace characters stripped by `str.strip()` (ASCII range;
Python additionally strips other Unicode whitespace, which no claim here
involves). -/
def isPySpace (c : Char) : Bool :=
  c == ' ' || c == '\t' || c == '\n' || c == '\r' || c == '\x0b' || c == '\x0c'

/-- Python `s.strip()`. -/
def pyStrip (s : String) : String :=
  String.mk (((s.toList.dropWhile isPySpace).reverse.dropWhile isPySpace).reverse)

/-! ## Constants (`const.py`) -/

def CONNECTION_TYPE_SERIAL : String := "serial"

def CONNECTION_TYPE_TCP : String := "tcp"

def AUTODETECT_SERIAL : String := "auto"

def DEFAULT_TCP_PORT : Nat := 4403

/-- Known Meshtastic-compatible USB VID/PID pairs (`MESHTASTIC_VID_PID`). -/
def MESHTASTIC_VID_PID : List (Nat × Nat) :=
  [(0x10C4, 0xEA60), (0x1A86, 0x7523), (0x1A86, 0x55D4), (0x239A, 0x8029),
   (0x239A, 0x8109), (0x2886, 0x0045), (0x2886, 0x0046)]

def IGNORED_PORT_PREFIXES : List String := ["/dev/ttyS"]

/-! ## Data classes (`connection.py`) -/

/-- `UsbDevice` dataclass from `connection.py` (all optional fields default
to `None`). -/
structure UsbDevice where
  device : String
  description : Option String := Option.none
  hwid : Option String := Option.none
  manufacturer : Option String := Option.none
  product : Option String := Option.none
  serial_number : Option String := Option.none
  vid : Option Nat := Option.none
  pid : Option Nat := Option.none
  location : Option String := Option.none
  deriving DecidableEq

/-- The Python `f"0x{v:04x}"` format used for vid/pid in `UsbDevice.as_dict`. -/
def hex4 (n : Nat) : String :=
  let ds := Nat.toDigits 16 n
  "0x" ++ String.mk (List.replicate (4 - ds.length) '0') ++ String.mk ds

/-- An `Option String` field as the Python value stored by `asdict`. -/
def optStr : Option String → PyVal
  | Option.none => .none
  | some s => .str s

/-- The ordered `(field name, value)` pairs that `dataclasses.asdict` yields
for a `UsbDevice`, after the hex reformatting of `vid`/`pid` that
`UsbDevice.as_dict` performs. -/
def UsbDevice.fieldPairs (u : UsbDevice) : List (String × PyVal) :=
  [("device", .str u.device),
   ("description", optStr u.description),
   ("hwid", optStr u.hwid),
   ("manufacturer", optStr u.manufacturer),
   ("product", optStr u.product),
   ("serial_number", optStr u.serial_number),
   ("vid", match u.vid with | some v => .str (hex4 v) | Option.none => .none),
   ("pid", match u.pid with | some p => .str (hex4 p) | Option.none => .none),
   ("location", optStr u.location)]

/-- `UsbDevice.as_dict`: keep every pair whose value `is not None`. -/
def UsbDevice.as_dict (u : UsbDevice) : List (String × PyVal) :=
  u.fieldPairs.filter (fun kv => kv.2 != PyVal.none)

/-- `MeshtasticNodeDetails` dataclass from `connection.py`.  Field values
come from untyped dict lookups, so each scalar field holds a `PyVal`
(`PyVal.none` models the dataclass default `None`); `channels` is the list
built by `_extract_channel_names`. -/
structure MeshtasticNodeDetails where
  firmware : PyVal := .none
  node_num : PyVal := .none
  hw_model : PyVal := .none
  my_node_id : PyVal := .none
  node_name : PyVal := .none
  region : PyVal := .none
  role : PyVal := .none
  route_table_size : PyVal := .none
  channel : PyVal := .none
  channels : List PyVal := []
  ble_mac : PyVal := .none
  ble_name : PyVal := .none
  rssi : PyVal := .none
  snr : PyVal := .none
  airtime_utilization : PyVal := .none
  last_message : PyVal := .none
  last_sender : PyVal := .none
  last_gateway : PyVal := .none
  last_message_type : PyVal := .none
  last_message_time : PyVal := .none
  battery_level : PyVal := .none
  battery_voltage : PyVal := .none
  temperature : PyVal := .none
  uptime : PyVal := .none
  deriving DecidableEq

/-- The ordered `(field name, value)` pairs of `dataclasses.asdict` for a
`MeshtasticNodeDetails`, in dataclass declaration order. -/
def MeshtasticNodeDetails.fieldPairs (d : MeshtasticNodeDetails) :
    List (String × PyVal) :=
  [("firmware", d.firmware),
   ("node_num", d.node_num),
   ("hw_model", d.hw_model),
   ("my_node_id", d.my_node_id),
   ("node_name", d.node_name),
   ("region", d.region),
   ("role", d.role),
   ("route_table_size", d.route_table_size),
   ("channel", d.channel),
   ("channels", .list (PyList.ofList d.channels)),
   ("ble_mac", d.ble_mac),
   ("ble_name", d.ble_name),
   ("rssi", d.rssi),
   ("snr", d.snr),
   ("airtime_utilization", d.airtime_utilization),
   ("last_message", d.last_message),
   ("last_sender", d.last_sender),
   ("last_gateway", d.last_gateway),
   ("last_message_type", d.last_message_type),
   ("last_message_time", d.last_message_time),
   ("battery_level", d.battery_level),
   ("battery_voltage", d.battery_voltage),
   ("temperature", d.temperature),
   ("uptime", d.uptime)]

/-- The Python membership test `value in (None, [], "")` used by
`MeshtasticNodeDetails.as_dict` (membership is by `==`). -/
def isNoneEmptyListOrEmptyStr (v : PyVal) : Bool :=
  v == PyVal.none || v == PyVal.list .nil || v == PyVal.str ""

/-- `MeshtasticNodeDetails.as_dict`: keep every pair whose value is
`not in (None, [], "")`. -/
def MeshtasticNodeDetails.as_dict (d : MeshtasticNodeDetails) :
    List (String × PyVal) :=
  d.fieldPairs.filter (fun kv => ! isNoneEmptyListOrEmptyStr kv.2)

/-- `MeshtasticDevice` dataclass from `connection.py` (the fields the Device
Reader populates). -/
structure MeshtasticDevice where
  connection_type : String
  serial_port : Option String := Option.none
  tcp_host : Option String := Option.none
  tcp_port : Option Nat := Option.none
  usb : Option UsbDevice := Option.none
  node : Option MeshtasticNodeDetails := Option.none
  error : Option String := Option.none
  deriving DecidableEq

/-- `MeshtasticConnectionConfig` dataclass from `connection.py`. -/
structure MeshtasticConnectionConfig where
  connection_type : String
  serial_port : Option String := Option.none
  tcp_host : Option String := Option.none
  tcp_port : Option Nat := Option.none
  deriving DecidableEq

/-- `DiscoveredTcpDevice` dataclass from `connection.py`. -/
structure DiscoveredTcpDevice where
  host : String
  port : Nat
  node : Option MeshtasticNodeDetails
  deriving DecidableEq

/-! ## Port enumeration (`connection.py` lines 176–216, 506–513) -/

/-- One OS-enumerated serial port as returned by
`serial.tools.list_ports.comports()` (the attributes the source reads). -/
structure PortInfo where
  device : String
  description : Option String := Option.none
  hwid : Option String := Option.none
  manufacturer : Option String := Option.none
  product : Option String := Option.none
  serial_number : Option String := Option.none
  vid : Option Nat := Option.none
  pid : Option Nat := Option.none
  location : Option String := Option.none
  deriving DecidableEq

/-- The `UsbDevice` that `list_serial_ports` constructs from a port entry. -/
def PortInfo.toUsbDevice (p : PortInfo) : UsbDevice :=
  { device := p.device, description := p.description, hwid := p.hwid,
    manufacturer := p.manufacturer, product := p.product,
    serial_number := p.serial_number, vid := p.vid, pid := p.pid,
    location := p.location }

/-- `_should_ignore_port`: ignored path prefix, or a truthy description
containing `"virtualbox"` case-insensitively. -/
def _should_ignore_port (device : String) (description : Option String) : Bool :=
  IGNORED_PORT_PREFIXES.any (fun pre => strStartsWith device pre) ||
    (match description with
     | some d => d != "" && strContainsSub (strLower d) "virtualbox"
     | Option.none => false)

/-- The loop body of `list_serial_ports` over the OS enumeration, with each
`continue` dropping the entry. -/
def list_serial_ports_loop : List PortInfo → List UsbDevice
  | [] => []
  | p :: rest =>
    if _should_ignore_port p.device p.description then
      list_serial_ports_loop rest
    else
      match p.vid, p.pid with
      | some v, some i =>
        if (v, i) ∈ MESHTASTIC_VID_PID then
          p.toUsbDevice :: list_serial_ports_loop rest
        else
          list_serial_ports_loop rest
      | _, _ => list_serial_ports_loop rest

/-! ## Environment for the effectful operations

The outcome of every call into the outside world (the OS serial enumeration,
the `SerialInterface`/`TCPInterface` constructors, the discovery host
enumeration and the bare TCP-connect probe) is supplied by an `Env`, so the
transport functions become pure functions of the environment that also
report the acquisition/release events they perform. -/

/-- Attributes and behavior of an open device-library interface object: its
protocol state (read by `_read_node_details`), whether each command method
exists (`hasattr`), and which calls raise. -/
structure InterfaceState where
  my_info : PyVal := .none
  radio_config : PyVal := .none
  nodes : List (PyVal × PyVal) := []
  channels : List PyVal := []
  last_received : PyVal := .none
  deriving DecidableEq

structure Interface where
  state : InterfaceState := {}
  /-- When `some msg`, reading the protocol structure raises (the weakly
  typed structure can make attribute accesses raise). -/
  readRaises : Option String := Option.none
  hasSendText : Bool := true
  sendRaises : Option String := Option.none
  hasReboot : Bool := true
  rebootRaises : Option String := Option.none
  hasSetPrimaryChannel : Bool := true
  setChannelRaises : Option String := Option.none
  /-- When `some msg`, `close()` raises. -/
  closeRaises : Option String := Option.none
  deriving DecidableEq

/-- Environment: outcomes of all external calls. -/
structure Env where
  /-- The OS enumeration `serial.tools.list_ports.comports()`. -/
  comports : List PortInfo := []
  /-- Outcome of `SerialInterface(path, noProto=False)` per path. -/
  serialIface : String → Except String Interface := fun _ => .error "serial open failed"
  /-- Outcome of `TCPInterface(host, port=port)` per host and port. -/
  tcpIface : String → Nat → Except String Interface := fun _ _ => .error "tcp open failed"
  /-- The candidate hosts yielded by `_iter_discovery_hosts` (a finite
  enumeration of a CIDR's hosts). -/
  discoveryHosts : List String := []
  /-- Result of the bare TCP-connect probe `_is_port_open`. -/
  portOpen : String → Nat → Bool := fun _ _ => false

/-- `list_serial_ports()`: filter the OS enumeration (the pyserial import is
modelled as available; its absence raises before any filtering). -/
def list_serial_ports (env : Env) : List UsbDevice :=
  list_serial_ports_loop env.comports

/-- `find_serial_device(serial_port)`: autodetect (`None` or `"auto"`)
returns the first enumerated port; an explicit path returns the first
enumerated entry with that device path. -/
def find_serial_device (env : Env) (serial_port : Option String) : Option UsbDevice :=
  let desired : Option String :=
    match serial_port with
    | Option.none => Option.none
    | some s => if s = AUTODETECT_SERIAL then Option.none else some s
  let ports := list_serial_ports env
  match desired with
  | Option.none => ports.head?
  | some d => ports.find? (fun port => port.device == d)

/-! ## Telemetry normalizer (`connection.py` lines 367–503) -/

/-- `_protobuf_to_dict`: `None` becomes `{}`; a dict-shaped value is that
dict; any value the conversion cannot handle also yields `{}` (the source's
last-resort `except Exception: return {}`). -/
def _protobuf_to_dict : PyVal → PyDict
  | .dict d => d
  | _ => .nil

/-- `_extract_channel_names`: each channel block's `settings.name`, else its
top-level `name`; collect the truthy ones in order. -/
def _extract_channel_names : List PyVal → List PyVal
  | [] => []
  | ch :: rest =>
    let channel_dict := _protobuf_to_dict ch
    let name := pyOr (pyGet (dictOrEmpty (pyGet channel_dict "settings")) "name")
                     (pyGet channel_dict "name")
    if name.truthy then name :: _extract_channel_names rest
    else _extract_channel_names rest

/-- `_read_node_details` (`connection.py`): populate node details from the
open interface's protocol state. -/
def _read_node_details (st : InterfaceState) : MeshtasticNodeDetails :=
  let my_info_dict := _protobuf_to_dict st.my_info
  let radio_config_dict := _protobuf_to_dict st.radio_config
  let nodes := st.nodes
  let channels := st.channels
  let last_received_dict := _protobuf_to_dict st.last_received
  let node_info := dictOrEmpty (pyGet my_info_dict "node_info")
  let user_info := dictOrEmpty (pyGet node_info "user")
  let node_num := pyGet my_info_dict "my_node_num"
  let ble_info := dictOrEmpty (pyOr (pyGet my_info_dict "ble")
                                    (pyGet my_info_dict "ble_info"))
  let channel_names := _extract_channel_names channels
  let metrics_dict := dictOrEmpty (pyGet my_info_dict "node_metrics")
  let rssi0 := pyOr (pyGet metrics_dict "rssi")
                 (pyOr (pyGet metrics_dict "rx_rssi")
                       (pyGet metrics_dict "last_heard_rssi"))
  let snr0 := pyOr (pyGet metrics_dict "snr")
                (pyOr (pyGet metrics_dict "rx_snr")
                      (pyGet metrics_dict "last_heard_snr"))
  let device_metrics := dictOrEmpty (pyGet my_info_dict "device_metrics")
  -- `if (rssi is None or snr is None) and nodes:` with
  -- `my_node = nodes.get(node_num)` and `if my_node is not None:`
  let fallback :=
    if (rssi0 = PyVal.none ∨ snr0 = PyVal.none) ∧ nodes ≠ [] then
      let my_node := assocGet nodes node_num
      if my_node ≠ PyVal.none then
        let node_dict := _protobuf_to_dict my_node
        (pyOr rssi0 (pyGet node_dict "rx_rssi"),
         pyOr snr0 (pyGet node_dict "rx_snr"))
      else (rssi0, snr0)
    else (rssi0, snr0)
  let decoded := dictOrEmpty (pyGet last_received_dict "decoded")
  { firmware := pyGet my_info_dict "firmware_version"
    node_num := node_num
    hw_model := pyGet my_info_dict "hw_model"
    my_node_id := pyGet my_info_dict "my_node_id"
    node_name := pyOr (pyGet user_info "long_name") (pyGet user_info "short_name")
    region := pyOr (pyGet my_info_dict "region")
                   (pyGet (dictOrEmpty (pyGet radio_config_dict "preferences")) "region")
    role := pyOr (pyGet (dictOrEmpty (pyGet radio_config_dict "preferences")) "role")
                 (pyGet node_info "role")
    route_table_size := .int nodes.length
    channel := match channel_names with
               | [] => .none
               | c :: _ => c
    channels := channel_names
    ble_mac := pyOr (pyGet ble_info "macaddr")
                    (pyOr (pyGet ble_info "address") (pyGet ble_info "mac"))
    ble_name := pyOr (pyGet ble_info "name") (pyGet ble_info "hostname")
    rssi := fallback.1
    snr := fallback.2
    airtime_utilization := pyOr (pyGet metrics_dict "air_util_tx")
                             (pyOr (pyGet metrics_dict "air_util")
                                   (pyGet metrics_dict "airtime"))
    last_message := pyOr (pyGet decoded "text")
                      (pyOr (pyGet decoded "payload") (pyGet decoded "data"))
    last_sender := pyOr (pyGet last_received_dict "from")
                        (pyGet last_received_dict "from_id")
    last_gateway := pyOr (pyGet last_received_dict "gateway_id")
                         (pyGet last_received_dict "rx_gateway")
    last_message_type := pyOr (pyGet decoded "portnum")
                           (pyOr (pyGet last_received_dict "portnum")
                                 (pyGet last_received_dict "type"))
    last_message_time := pyOr (pyGet last_received_dict "rx_time")
                           (pyOr (pyGet last_received_dict "time")
                                 (pyGet decoded "rx_time"))
    battery_level := pyGet device_metrics "battery_level"
    battery_voltage := pyOr (pyGet device_metrics "voltage")
                            (pyGet device_metrics "battery_voltage")
    temperature := pyGet device_metrics "temperature"
    uptime := pyOr (pyGet my_info_dict "uptime") (pyGet device_metrics "uptime") }

/-! ## Older-generation scanner (`coordinator.py`) -/

/-- `MeshtasticNodeDetails` dataclass from `coordinator.py` (the older
USB-only scanner's narrower field set). -/
structure CoordNodeDetails where
  firmware : PyVal := .none
  node_num : PyVal := .none
  hw_model : PyVal := .none
  my_node_id : PyVal := .none
  node_name : PyVal := .none
  region : PyVal := .none
  role : PyVal := .none
  route_table_size : PyVal := .none
  channel : PyVal := .none
  channels : List PyVal := []
  ble_mac : PyVal := .none
  ble_name : PyVal := .none
  rssi : PyVal := .none
  snr : PyVal := .none
  airtime_utilization : PyVal := .none
  last_message : PyVal := .none
  last_sender : PyVal := .none
  last_gateway : PyVal := .none
  deriving DecidableEq

/-- The normalization body of `_read_meshtastic_details` (`coordinator.py`
lines 197–268): what the older scanner extracts from the same interface
state once the serial interface is open.  (`coordinator.py` has its own
`_protobuf_to_dict` and `_extract_channel_names` that behave identically on
these inputs.) -/
def coord_read_meshtastic_details (st : InterfaceState) : CoordNodeDetails :=
  let my_info_dict := _protobuf_to_dict st.my_info
  let radio_config_dict := _protobuf_to_dict st.radio_config
  let nodes := st.nodes
  let channels := st.channels
  let last_received_dict := _protobuf_to_dict st.last_received
  let node_info := dictOrEmpty (pyGet my_info_dict "node_info")
  let user_info := dictOrEmpty (pyGet node_info "user")
  let node_num := pyGet my_info_dict "my_node_num"
  let ble_info := dictOrEmpty (pyOr (pyGet my_info_dict "ble")
                                    (pyGet my_info_dict "ble_info"))
  let channel_names := _extract_channel_names channels
  let metrics_dict := dictOrEmpty (pyGet my_info_dict "node_metrics")
  let rssi0 := pyOr (pyGet metrics_dict "rssi")
                 (pyOr (pyGet metrics_dict "rx_rssi")
                       (pyGet metrics_dict "last_heard_rssi"))
  let snr0 := pyOr (pyGet metrics_dict "snr")
                (pyOr (pyGet metrics_dict "rx_snr")
                      (pyGet metrics_dict "last_heard_snr"))
  -- `node_details.rssi = node_details.rssi or node_dict.get("snr") or node_dict.get("rx_rssi")`
  -- `node_details.snr  = node_details.snr  or node_dict.get("snr") or node_dict.get("rx_snr")`
  let fallback :=
    if (rssi0 = PyVal.none ∨ snr0 = PyVal.none) ∧ nodes ≠ [] then
      let my_node := assocGet nodes node_num
      if my_node ≠ PyVal.none then
        let node_dict := _protobuf_to_dict my_node
        (pyOr rssi0 (pyOr (pyGet node_dict "snr") (pyGet node_dict "rx_rssi")),
         pyOr snr0 (pyOr (pyGet node_dict "snr") (pyGet node_dict "rx_snr")))
      else (rssi0, snr0)
    else (rssi0, snr0)
  let decoded := dictOrEmpty (pyGet last_received_dict "decoded")
  { firmware := pyGet my_info_dict "firmware_version"
    node_num := node_num
    hw_model := pyGet my_info_dict "hw_model"
    my_node_id := pyGet my_info_dict "my_node_id"
    node_name := pyOr (pyGet user_info "long_name") (pyGet user_info "short_name")
    region := pyOr (pyGet my_info_dict "region")
                   (pyGet (dictOrEmpty (pyGet radio_config_dict "preferences")) "region")
    role := pyOr (pyGet (dictOrEmpty (pyGet radio_config_dict "preferences")) "role")
                 (pyGet node_info "role")
    route_table_size := .int nodes.length
    channel := match channel_names with
               | [] => .none
               | c :: _ => c
    channels := channel_names
    ble_mac := pyOr (pyGet ble_info "macaddr")
                    (pyOr (pyGet ble_info "address") (pyGet ble_info "mac"))
    ble_name := pyOr (pyGet ble_info "name") (pyGet ble_info "hostname")
    rssi := fallback.1
    snr := fallback.2
    airtime_utilization := pyOr (pyGet metrics_dict "air_util_tx")
                             (pyOr (pyGet metrics_dict "air_util")
                                   (pyGet metrics_dict "airtime"))
    last_message := pyOr (pyGet decoded "text")
                      (pyOr (pyGet decoded "payload") (pyGet decoded "data"))
    last_sender := pyOr (pyGet last_received_dict "from")
                        (pyGet last_received_dict "from_id")
    last_gateway := pyOr (pyGet last_received_dict "gateway_id")
                         (pyGet last_received_dict "rx_gateway") }

/-! ## Transport lifecycle (`connection.py` lines 219–364) -/

/-- The transport acquisition/release events a call performs. -/
inductive Event where
  | openSerial (path : String)
  | openTcp (host : String) (port : Nat)
  | close
  deriving DecidableEq

/-- Whether an event is a (successful) transport acquisition. -/
def Event.isOpen : Event → Bool
  | .close => false
  | _ => true

/-- Number of transport acquisitions in a trace. -/
def openCount (evs : List Event) : Nat := (evs.filter Event.isOpen).length

/-- Number of `close()` invocations in a trace. -/
def closeCount (evs : List Event) : Nat :=
  (evs.filter (fun e => e == Event.close)).length

/-- The exceptions the transport layer raises: `MeshtasticConnectionError`
with a message, or any other Python exception. -/
inductive MeshErr where
  | connErr (msg : String)
  | exc (msg : String)
  deriving DecidableEq

/-- `try: body finally: with suppress(Exception): interface.close()` —
`close()` is invoked exactly once and whatever it raises is suppressed, so
the body's outcome is returned unchanged in both cases. -/
def withClose {α : Type} (iface : Interface) (body : Except MeshErr α) :
    Except MeshErr α × List Event :=
  match iface.closeRaises with
  | Option.none => (body, [Event.close])
  | some _ => (body, [Event.close])

/-- The outcome of `_read_node_details(interface)` on a live interface:
either the normalized details, or the exception the structure traversal
raised (propagated unchanged by the caller). -/
def readBody (iface : Interface) : Except MeshErr MeshtasticNodeDetails :=
  match iface.readRaises with
  | some m => .error (.exc m)
  | Option.none => .ok (_read_node_details iface.state)

/-- The effective TCP port: `config.tcp_port or DEFAULT_TCP_PORT`
(Python `or`, so `0` and `None` both fall back to the default). -/
def effectiveTcpPort (tcp_port : Option Nat) : Nat :=
  match tcp_port with
  | some p => if p ≠ 0 then p else DEFAULT_TCP_PORT
  | Option.none => DEFAULT_TCP_PORT

/-- Python `not config.tcp_host`: absent or empty. -/
def tcpHostFalsy : Option String → Bool
  | Option.none => true
  | some s => s == ""

/-- `read_meshtastic_device(config)`: resolve the transport, open it, read
node details, and always close, returning the populated device record. -/
def read_meshtastic_device (env : Env) (config : MeshtasticConnectionConfig) :
    Except MeshErr MeshtasticDevice × List Event :=
  if config.connection_type = CONNECTION_TYPE_SERIAL then
    match find_serial_device env config.serial_port with
    | Option.none => (.error (.connErr "serial_port_not_found"), [])
    | some usb =>
      match env.serialIface usb.device with
      | .error m => (.error (.connErr m), [])
      | .ok iface =>
        let (r, evs) := withClose iface (readBody iface)
        (r.map (fun nd =>
          { connection_type := config.connection_type,
            serial_port := some usb.device, usb := some usb, node := some nd }),
         Event.openSerial usb.device :: evs)
  else if config.connection_type = CONNECTION_TYPE_TCP then
    if tcpHostFalsy config.tcp_host then
      (.error (.connErr "tcp_host_missing"), [])
    else
      let host := (config.tcp_host).getD ""
      let port := effectiveTcpPort config.tcp_port
      match env.tcpIface host port with
      | .error m => (.error (.connErr m), [])
      | .ok iface =>
        let (r, evs) := withClose iface (readBody iface)
        (r.map (fun nd =>
          { connection_type := config.connection_type,
            tcp_host := some host, tcp_port := some port, node := some nd }),
         Event.openTcp host port :: evs)
  else
    (.error (.connErr "invalid_connection_type"), [])

/-- `_open_interface_from_config(config)`: return an open interface and the
associated USB device, or the resolution error; the trace records the
successful acquisition. -/
def _open_interface_from_config (env : Env) (config : MeshtasticConnectionConfig) :
    Except MeshErr (Interface × Option UsbDevice) × List Event :=
  if config.connection_type = CONNECTION_TYPE_SERIAL then
    match find_serial_device env config.serial_port with
    | Option.none => (.error (.connErr "serial_port_not_found"), [])
    | some usb =>
      match env.serialIface usb.device with
      | .error m => (.error (.connErr m), [])
      | .ok iface => (.ok (iface, some usb), [Event.openSerial usb.device])
  else if config.connection_type = CONNECTION_TYPE_TCP then
    if tcpHostFalsy config.tcp_host then
      (.error (.connErr "tcp_host_missing"), [])
    else
      let host := (config.tcp_host).getD ""
      let port := effectiveTcpPort config.tcp_port
      match env.tcpIface host port with
      | .error m => (.error (.connErr m), [])
      | .ok iface => (.ok (iface, Option.none), [Event.openTcp host port])
  else
    (.error (.connErr "invalid_connection_type"), [])

/-- `send_text_message(config, message, target)`: open, check `sendText`
exists, invoke it (with `destinationId=target` when `target` is truthy,
which does not affect control flow), and always close. -/
def send_text_message (env : Env) (config : MeshtasticConnectionConfig)
    (_message : String) (_target : Option String) :
    Except MeshErr Unit × List Event :=
  match _open_interface_from_config env config with
  | (.error e, evs) => (.error e, evs)
  | (.ok (iface, _), evs) =>
    let body : Except MeshErr Unit :=
      if ! iface.hasSendText then .error (.connErr "send_text_not_supported")
      else match iface.sendRaises with
           | some m => .error (.exc m)
           | Option.none => .ok ()
    let (r, evs2) := withClose iface body
    (r, evs ++ evs2)

/-- `reboot_node(config)`. -/
def reboot_node (env : Env) (config : MeshtasticConnectionConfig) :
    Except MeshErr Unit × List Event :=
  match _open_interface_from_config env config with
  | (.error e, evs) => (.error e, evs)
  | (.ok (iface, _), evs) =>
    let body : Except MeshErr Unit :=
      if ! iface.hasReboot then .error (.connErr "reboot_not_supported")
      else match iface.rebootRaises with
           | some m => .error (.exc m)
           | Option.none => .ok ()
    let (r, evs2) := withClose iface body
    (r, evs ++ evs2)

/-- `set_primary_channel(config, channel_name)`. -/
def set_primary_channel (env : Env) (config : MeshtasticConnectionConfig)
    (_channel_name : String) : Except MeshErr Unit × List Event :=
  match _open_interface_from_config env config with
  | (.error e, evs) => (.error e, evs)
  | (.ok (iface, _), evs) =>
    let body : Except MeshErr Unit :=
      if ! iface.hasSetPrimaryChannel then
        .error (.connErr "set_channel_not_supported")
      else match iface.setChannelRaises with
           | some m => .error (.exc m)
           | Option.none => .ok ()
    let (r, evs2) := withClose iface body
    (r, evs ++ evs2)

/-! ## TCP discovery (`connection.py` lines 298–325) -/

/-- The config discovery builds for each candidate host. -/
def tcpProbeConfig (host : String) (port : Nat) : MeshtasticConnectionConfig :=
  { connection_type := CONNECTION_TYPE_TCP, tcp_host := some host,
    tcp_port := some port }

/-- One discovery probe: skip loopback/all-zero hosts, require the bare TCP
connect to succeed, then run a full Device Reader cycle; every exception
(`MeshtasticConnectionError` or any other) only skips this host. -/
def probeHost (env : Env) (port : Nat) (host : String) :
    Option DiscoveredTcpDevice :=
  if host = "127.0.0.1" ∨ host = "0.0.0.0" then Option.none
  else if ! env.portOpen host port then Option.none
  else
    match (read_meshtastic_device env (tcpProbeConfig host port)).1 with
    | .error _ => Option.none
    | .ok device => some { host := host, port := port, node := device.node }

/-- The host loop of `discover_tcp_devices`. -/
def discover_loop (env : Env) (port : Nat) : List String → List DiscoveredTcpDevice
  | [] => []
  | host :: rest =>
    match probeHost env port host with
    | Option.none => discover_loop env port rest
    | some d => d :: discover_loop env port rest

/-- `discover_tcp_devices(port)`: probe every candidate host from
`_iter_discovery_hosts` in order. -/
def discover_tcp_devices (env : Env) (port : Nat) : List DiscoveredTcpDevice :=
  discover_loop env port env.discoveryHosts

/-! ## Service handlers (`__init__.py` lines 109–138) -/

/-- Errors surfaced by the service layer: `HomeAssistantError` (including
wrapped `MeshtasticConnectionError`s), or an unexpected exception that
propagates unwrapped. -/
inductive ServiceErr where
  | ha (msg : String)
  | exc (msg : String)
  deriving DecidableEq

/-- `_async_call_with_connection`'s wrapping of a command's outcome:
`MeshtasticConnectionError` becomes `HomeAssistantError(str(err))`. -/
def wrapCommandResult : Except MeshErr Unit → Except ServiceErr Unit
  | .ok _ => .ok ()
  | .error (.connErr m) => .error (.ha m)
  | .error (.exc m) => .error (.exc m)

/-- `_async_handle_send_message`: reject a blank message before any
transport work, else run `send_text_message` for the targeted connection. -/
def async_handle_send_message (env : Env) (config : MeshtasticConnectionConfig)
    (message : String) (target : Option String) :
    Except ServiceErr Unit × List Event :=
  if pyStrip message = "" then
    (.error (.ha "Message cannot be empty"), [])
  else
    let (r, evs) := send_text_message env config message target
    (wrapCommandResult r, evs)

/-- `_async_handle_set_channel`: reject a blank channel name before any
transport work, else run `set_primary_channel`. -/
def async_handle_set_channel (env : Env) (config : MeshtasticConnectionConfig)
    (channel_name : String) : Except ServiceErr Unit × List Event :=
  if pyStrip channel_name = "" then
    (.error (.ha "Channel name cannot be empty"), [])
  else
    let (r, evs) := set_primary_channel env config channel_name
    (wrapCommandResult r, evs)

deriving instance DecidableEq for Except

/-! ## Helper lemmas -/

theorem pyOr_of_truthy (a b : PyVal) (h : a.truthy = true) : pyOr a b = a := by
  simp [pyOr, h]

theorem pyOr_of_falsy (a b : PyVal) (h : a.truthy = false) : pyOr a b = b := by
  simp [pyOr, h]

theorem truthy_ne_none {a : PyVal} (h : a.truthy = true) : a ≠ PyVal.none := by
  intro hn
  subst hn
  simp [PyVal.truthy] at h

theorem withClose_eq {α : Type} (iface : Interface) (body : Except MeshErr α) :
    withClose iface body = (body, [Event.close]) := by
  cases h : iface.closeRaises <;> simp [withClose, h]

theorem open_iface_spec (env : Env) (config : MeshtasticConnectionConfig) :
    (∃ e, _open_interface_from_config env config = (.error e, [])) ∨
    (∃ iface usb ev, _open_interface_from_config env config = (.ok (iface, usb), [ev]) ∧
       Event.isOpen ev = true) := by
  unfold _open_interface_from_config
  split
  · cases h : find_serial_device env config.serial_port with
    | none => exact Or.inl ⟨_, rfl⟩
    | some usb =>
      dsimp only
      cases h2 : env.serialIface usb.device with
      | error m => exact Or.inl ⟨_, rfl⟩
      | ok iface => exact Or.inr ⟨iface, some usb, _, rfl, rfl⟩
  · split
    · split
      · exact Or.inl ⟨_, rfl⟩
      · dsimp only
        cases h2 : env.tcpIface ((config.tcp_host).getD "") (effectiveTcpPort config.tcp_port) with
        | error m => exact Or.inl ⟨_, rfl⟩
        | ok iface => exact Or.inr ⟨iface, Option.none, _, rfl, rfl⟩
    · exact Or.inl ⟨_, rfl⟩

theorem read_events_spec (env : Env) (config : MeshtasticConnectionConfig) :
    (∃ e, read_meshtastic_device env config = (.error e, [])) ∨
    (∃ r ev, read_meshtastic_device env config = (r, [ev, Event.close]) ∧
       Event.isOpen ev = true) := by
  unfold read_meshtastic_device
  split
  · cases h : find_serial_device env config.serial_port with
    | none => exact Or.inl ⟨_, rfl⟩
    | some usb =>
      dsimp only
      cases h2 : env.serialIface usb.device with
      | error m => exact Or.inl ⟨_, rfl⟩
      | ok iface =>
        dsimp only
        rw [withClose_eq]
        exact Or.inr ⟨_, _, rfl, rfl⟩
  · split
    · split
      · exact Or.inl ⟨_, rfl⟩
      · dsimp only
        cases h2 : env.tcpIface ((config.tcp_host).getD "") (effectiveTcpPort config.tcp_port) with
        | error m => exact Or.inl ⟨_, rfl⟩
        | ok iface =>
          dsimp only
          rw [withClose_eq]
          exact Or.inr ⟨_, _, rfl, rfl⟩
    · exact Or.inl ⟨_, rfl⟩

/-! ## Concrete fixtures used by witnesses and counterexamples -/

/-- An interface whose `close()` raises (exercises the close-failure path). -/
def ifaceW : Interface := { closeRaises := some "close boom" }

/-- An allow-listed CP2102 port as the OS enumerates it. -/
def portW : PortInfo := { device := "/dev/ttyACM0", vid := some 0x10C4, pid := some 0xEA60 }

/-- Environment with one matching serial port whose interface opens. -/
def envW : Env := { comports := [portW], serialIface := fun _ => .ok ifaceW }

/-- Serial autodetect configuration. -/
def cfgW : MeshtasticConnectionConfig :=
  { connection_type := "serial", serial_port := some "auto" }

/-- C1: on every Device Reader and Command Executor call in which the
transport open succeeds, `close()` is invoked exactly once — on the success
path and on every failure path of the read or command — and an exception
raised by `close()` itself is swallowed (the body's outcome is returned
unchanged whatever `close()` does). -/
theorem close_called_exactly_once_and_close_errors_swallowed
    (env : Env) (config : MeshtasticConnectionConfig) (message : String)
    (target : Option String) (channel_name : String) :
    (0 < openCount (read_meshtastic_device env config).2 →
       closeCount (read_meshtastic_device env config).2 = 1) ∧
    (0 < openCount (send_text_message env config message target).2 →
       closeCount (send_text_message env config message target).2 = 1) ∧
    (0 < openCount (reboot_node env config).2 →
       closeCount (reboot_node env config).2 = 1) ∧
    (0 < openCount (set_primary_channel env config channel_name).2 →
       closeCount (set_primary_channel env config channel_name).2 = 1) ∧
    (∀ (α : Type) (iface : Interface) (body : Except MeshErr α),
       (withClose iface body).1 = body) := by
  refine ⟨?_, ?_, ?_, ?_, ?_⟩
  · rcases read_events_spec env config with ⟨e, he⟩ | ⟨r, ev, he, hopen⟩
    · simp [he, openCount]
    · rw [he]
      cases ev <;> simp_all [Event.isOpen, closeCount]
  · rcases open_iface_spec env config with ⟨e, he⟩ | ⟨iface, usb, ev, he, hopen⟩
    · simp [send_text_message, he, openCount]
    · rw [send_text_message, he]
      dsimp only
      rw [withClose_eq]
      cases ev <;> simp_all [Event.isOpen, closeCount]
  · rcases open_iface_spec env config with ⟨e, he⟩ | ⟨iface, usb, ev, he, hopen⟩
    · simp [reboot_node, he, openCount]
    · rw [reboot_node, he]
      dsimp only
      rw [withClose_eq]
      cases ev <;> simp_all [Event.isOpen, closeCount]
  · rcases open_iface_spec env config with ⟨e, he⟩ | ⟨iface, usb, ev, he, hopen⟩
    · simp [set_primary_channel, he, openCount]
    · rw [set_primary_channel, he]
      dsimp only
      rw [withClose_eq]
      cases ev <;> simp_all [Event.isOpen, closeCount]
  · intro α iface body
    rw [withClose_eq]

/-- C1 witness: on a concrete environment where the serial open succeeds and
`close()` raises, the transport was opened and closed exactly once. -/
theorem close_called_exactly_once_witness :
    0 < openCount (read_meshtastic_device envW cfgW).2 ∧
    closeCount (read_meshtastic_device envW cfgW).2 = 1 :=
  ⟨by decide,
   (close_called_exactly_once_and_close_errors_swallowed envW cfgW "hi"
      Option.none "main").1 (by decide)⟩

/-- C2: resolution failures — missing TCP host, unmatched serial port, and
unknown connection kind — produce the corresponding
`MeshtasticConnectionError` without any transport being opened, on both the
Device Reader path and the Command Executor path. -/
theorem connection_resolution_errors
    (env : Env) (config : MeshtasticConnectionConfig) (message : String)
    (target : Option String) (channel_name : String) :
    (config.connection_type = CONNECTION_TYPE_TCP →
     tcpHostFalsy config.tcp_host = true →
       read_meshtastic_device env config = (.error (.connErr "tcp_host_missing"), []) ∧
       _open_interface_from_config env config = (.error (.connErr "tcp_host_missing"), []) ∧
       send_text_message env config message target = (.error (.connErr "tcp_host_missing"), []) ∧
       reboot_node env config = (.error (.connErr "tcp_host_missing"), []) ∧
       set_primary_channel env config channel_name = (.error (.connErr "tcp_host_missing"), [])) ∧
    (config.connection_type = CONNECTION_TYPE_SERIAL →
     find_serial_device env config.serial_port = Option.none →
       read_meshtastic_device env config = (.error (.connErr "serial_port_not_found"), []) ∧
       _open_interface_from_config env config = (.error (.connErr "serial_port_not_found"), []) ∧
       send_text_message env config message target = (.error (.connErr "serial_port_not_found"), []) ∧
       reboot_node env config = (.error (.connErr "serial_port_not_found"), []) ∧
       set_primary_channel env config channel_name = (.error (.connErr "serial_port_not_found"), [])) ∧
    (config.connection_type ≠ CONNECTION_TYPE_SERIAL →
     config.connection_type ≠ CONNECTION_TYPE_TCP →
       read_meshtastic_device env config = (.error (.connErr "invalid_connection_type"), []) ∧
       _open_interface_from_config env config = (.error (.connErr "invalid_connection_type"), []) ∧
       send_text_message env config message target = (.error (.connErr "invalid_connection_type"), []) ∧
       reboot_node env config = (.error (.connErr "invalid_connection_type"), []) ∧
       set_primary_channel env config channel_name = (.error (.connErr "invalid_connection_type"), [])) := by
  refine ⟨?_, ?_, ?_⟩
  · intro h1 h2
    have hoi : _open_interface_from_config env config =
        (.error (.connErr "tcp_host_missing"), []) := by
      simp [_open_interface_from_config, h1, h2, CONNECTION_TYPE_SERIAL, CONNECTION_TYPE_TCP]
    refine ⟨?_, hoi, ?_, ?_, ?_⟩
    · simp [read_meshtastic_device, h1, h2, CONNECTION_TYPE_SERIAL, CONNECTION_TYPE_TCP]
    · simp [send_text_message, hoi]
    · simp [reboot_node, hoi]
    · simp [set_primary_channel, hoi]
  · intro h1 h2
    have hoi : _open_interface_from_config env config =
        (.error (.connErr "serial_port_not_found"), []) := by
      simp [_open_interface_from_config, h1, h2]
    refine ⟨?_, hoi, ?_, ?_, ?_⟩
    · simp [read_meshtastic_device, h1, h2]
    · simp [send_text_message, hoi]
    · simp [reboot_node, hoi]
    · simp [set_primary_channel, hoi]
  · intro h1 h2
    have hoi : _open_interface_from_config env config =
        (.error (.connErr "invalid_connection_type"), []) := by
      simp [_open_interface_from_config, h1, h2]
    refine ⟨?_, hoi, ?_, ?_, ?_⟩
    · simp [read_meshtastic_device, h1, h2]
    · simp [send_text_message, hoi]
    · simp [reboot_node, hoi]
    · simp [set_primary_channel, hoi]

/-- C2 witness: the three failure classes at concrete configurations
(empty TCP host; serial port that no enumerated entry matches; an unknown
connection kind), each yielding its error with an empty event trace. -/
theorem connection_resolution_errors_witness :
    (read_meshtastic_device envW { connection_type := "tcp", tcp_host := some "" } =
       (.error (.connErr "tcp_host_missing"), [])) ∧
    (read_meshtastic_device envW { connection_type := "serial", serial_port := some "/dev/nope" } =
       (.error (.connErr "serial_port_not_found"), [])) ∧
    (read_meshtastic_device envW { connection_type := "bluetooth" } =
       (.error (.connErr "invalid_connection_type"), [])) :=
  ⟨((connection_resolution_errors envW { connection_type := "tcp", tcp_host := some "" }
      "m" Option.none "c").1 (by decide) (by decide)).1,
   ((connection_resolution_errors envW { connection_type := "serial", serial_port := some "/dev/nope" }
      "m" Option.none "c").2.1 (by decide) (by decide)).1,
   ((connection_resolution_errors envW { connection_type := "bluetooth" }
      "m" Option.none "c").2.2 (by decide) (by decide)).1⟩

/-- A second allow-listed port, for environments with two radios. -/
def portW2 : PortInfo := { device := "/dev/ttyACM1", vid := some 0x1A86, pid := some 0x7523 }

/-- Environment enumerating two allow-listed ports. -/
def envW2 : Env := { comports := [portW, portW2] }

/-- C4: `find_serial_device` with `"auto"` or no port returns the head of
`list_serial_ports()` (absent exactly when the enumeration is empty), and
with an explicit path returns the first enumerated entry whose device path
equals that string, or absent. -/
theorem find_serial_device_spec (env : Env) (p : String) :
    (find_serial_device env Option.none = (list_serial_ports env).head?) ∧
    (find_serial_device env (some AUTODETECT_SERIAL) = (list_serial_ports env).head?) ∧
    (list_serial_ports env = [] → find_serial_device env (some AUTODETECT_SERIAL) = Option.none) ∧
    (p ≠ AUTODETECT_SERIAL →
       find_serial_device env (some p) =
         (list_serial_ports env).find? (fun d => d.device == p)) := by
  refine ⟨rfl, by simp [find_serial_device], ?_, ?_⟩
  · intro h
    simp [find_serial_device, h]
  · intro hp
    simp [find_serial_device, hp]

/-- C4 witness: at a concrete two-port environment, the explicit path
`"/dev/ttyACM1"` resolves to the matching enumerated entry. -/
theorem find_serial_device_witness :
    ("/dev/ttyACM1" : String) ≠ AUTODETECT_SERIAL ∧
    find_serial_device envW2 (some "/dev/ttyACM1") =
      (list_serial_ports envW2).find? (fun d => d.device == "/dev/ttyACM1") :=
  ⟨by decide, (find_serial_device_spec envW2 "/dev/ttyACM1").2.2.2 (by decide)⟩

/-- Whether a port entry carries both ids and an allow-listed
(vendor-id, product-id) pair. -/
def portAllowListed (p : PortInfo) : Bool :=
  match p.vid, p.pid with
  | some v, some i => decide ((v, i) ∈ MESHTASTIC_VID_PID)
  | _, _ => false

/-- The declarative filtering policy of `list_serial_ports`: no ignored
path prefix and no virtualization-artifact description, both ids present,
and the id pair allow-listed. -/
def portKeep (p : PortInfo) : Bool :=
  !(_should_ignore_port p.device p.description) &&
    p.vid.isSome && p.pid.isSome && portAllowListed p

theorem toUsbDevice_inj {p q : PortInfo} (h : p.toUsbDevice = q.toUsbDevice) :
    p = q := by
  cases p
  cases q
  simp only [PortInfo.toUsbDevice, UsbDevice.mk.injEq] at h
  simp only [PortInfo.mk.injEq]
  exact h

theorem list_serial_ports_loop_eq (l : List PortInfo) :
    list_serial_ports_loop l = (l.filter portKeep).map PortInfo.toUsbDevice := by
  induction l with
  | nil => rfl
  | cons p rest ih =>
    by_cases hig : _should_ignore_port p.device p.description
    · simp [list_serial_ports_loop, hig, portKeep, List.filter_cons, ih]
    · cases hv : p.vid with
      | none =>
        simp [list_serial_ports_loop, hig, portKeep, portAllowListed, hv,
          List.filter_cons, ih]
      | some v =>
        cases hi : p.pid with
        | none =>
          simp [list_serial_ports_loop, hig, portKeep, portAllowListed, hv, hi,
            List.filter_cons, ih]
        | some i =>
          by_cases hmem : (v, i) ∈ MESHTASTIC_VID_PID
          · simp [list_serial_ports_loop, hig, portKeep, portAllowListed, hv, hi,
              hmem, List.filter_cons, ih]
          · simp [list_serial_ports_loop, hig, portKeep, portAllowListed, hv, hi,
              hmem, List.filter_cons, ih]

/-- C5 (amended): port enumeration returns exactly the OS-enumerated ports
surviving the policy — no ignored prefix, no "virtualbox" description, both
ids present, id pair allow-listed; a port with an ignored prefix or a
non-allow-listed id pair is excluded, and every enumerated port with
allow-listed ids that `_should_ignore_port` does not reject (no ignored
prefix and no virtualbox description) is included. -/
theorem port_filtering_policy (env : Env) (p : PortInfo) :
    (list_serial_ports env = (env.comports.filter portKeep).map PortInfo.toUsbDevice) ∧
    (IGNORED_PORT_PREFIXES.any (fun pre => strStartsWith p.device pre) = true →
       p.toUsbDevice ∉ list_serial_ports env) ∧
    (portAllowListed p = false → p.toUsbDevice ∉ list_serial_ports env) ∧
    (p ∈ env.comports → portAllowListed p = true →
       _should_ignore_port p.device p.description = false →
       p.toUsbDevice ∈ list_serial_ports env) := by
  have hkeep : list_serial_ports env = (env.comports.filter portKeep).map PortInfo.toUsbDevice :=
    list_serial_ports_loop_eq env.comports
  refine ⟨hkeep, ?_, ?_, ?_⟩
  · intro hpre hmem
    rw [hkeep] at hmem
    obtain ⟨q, hq, hqe⟩ := List.mem_map.mp hmem
    obtain ⟨-, hqk⟩ := List.mem_filter.mp hq
    cases toUsbDevice_inj hqe
    simp [portKeep, _should_ignore_port, hpre] at hqk
  · intro hal hmem
    rw [hkeep] at hmem
    obtain ⟨q, hq, hqe⟩ := List.mem_map.mp hmem
    obtain ⟨-, hqk⟩ := List.mem_filter.mp hq
    cases toUsbDevice_inj hqe
    simp [portKeep, hal] at hqk
  · intro hin hal hig
    rw [hkeep]
    refine List.mem_map.mpr ⟨p, List.mem_filter.mpr ⟨hin, ?_⟩, rfl⟩
    have hvid : p.vid.isSome = true := by
      cases hv : p.vid with
      | none => simp [portAllowListed, hv] at hal
      | some v => rfl
    have hpid : p.pid.isSome = true := by
      cases hi : p.pid with
      | none =>
        cases hv : p.vid <;> simp [portAllowListed, hv, hi] at hal
      | some i => rfl
    simp [portKeep, hig, hvid, hpid, hal]

/-- The port that falsifies C5 as stated: allow-listed CP2102 ids and no
ignored path prefix, but a VirtualBox description. -/
def pC5 : PortInfo :=
  { device := "/dev/ttyUSB0", description := some "VirtualBox virtual port",
    vid := some 0x10C4, pid := some 0xEA60 }

/-- Environment enumerating only `pC5`. -/
def envC5 : Env := { comports := [pC5] }

/-- C5 counterexample: an enumerated port with allow-listed ids and no
ignored prefix is nevertheless excluded (its description contains
"virtualbox"), refuting the claim's unconditional inclusion clause. -/
theorem port_filtering_counterexample :
    IGNORED_PORT_PREFIXES.any (fun pre => strStartsWith pC5.device pre) = false ∧
    portAllowListed pC5 = true ∧
    pC5 ∈ envC5.comports ∧
    pC5.toUsbDevice ∉ list_serial_ports envC5 ∧
    list_serial_ports envC5 = [] := by decide

/-- C5 witness: a clean allow-listed port is included, and a non
allow-listed port is excluded, at a concrete environment. -/
theorem port_filtering_witness :
    portW ∈ envW2.comports ∧ portAllowListed portW = true ∧
    _should_ignore_port portW.device portW.description = false ∧
    portW.toUsbDevice ∈ list_serial_ports envW2 :=
  ⟨by decide, by decide, by decide,
   (port_filtering_policy envW2 portW).2.2.2 (by decide) (by decide) (by decide)⟩

theorem pyStrip_of_all_space {s : String} (h : s.toList.all isPySpace = true) :
    pyStrip s = "" := by
  have h1 : s.toList.dropWhile isPySpace = [] := by
    rw [List.dropWhile_eq_nil_iff]
    intro x hx
    exact List.all_eq_true.mp h x hx
  rw [pyStrip, h1]
  rfl

/-- C6: a whitespace-only (or empty) message, and a whitespace-only (or
empty) channel name, are rejected by the service handlers before any
transport work: the handler fails with the validation error and the event
trace is empty (no transport opened). -/
theorem blank_command_arguments_rejected
    (env : Env) (config : MeshtasticConnectionConfig) (target : Option String)
    (message channel_name : String) :
    (message.toList.all isPySpace = true →
       async_handle_send_message env config message target =
         (.error (.ha "Message cannot be empty"), [])) ∧
    (channel_name.toList.all isPySpace = true →
       async_handle_set_channel env config channel_name =
         (.error (.ha "Channel name cannot be empty"), [])) := by
  constructor
  · intro h
    simp [async_handle_send_message, pyStrip_of_all_space h]
  · intro h
    simp [async_handle_set_channel, pyStrip_of_all_space h]

/-- C6 witness: the empty and the two-space message, and a blank channel
name, are rejected with no events at a concrete environment. -/
theorem blank_command_arguments_rejected_witness :
    (async_handle_send_message envW cfgW "" Option.none =
       (.error (.ha "Message cannot be empty"), [])) ∧
    (async_handle_send_message envW cfgW "  " Option.none =
       (.error (.ha "Message cannot be empty"), [])) ∧
    (async_handle_set_channel envW cfgW " " =
       (.error (.ha "Channel name cannot be empty"), [])) :=
  ⟨(blank_command_arguments_rejected envW cfgW Option.none "" "x").1 (by decide),
   (blank_command_arguments_rejected envW cfgW Option.none "  " "x").1 (by decide),
   (blank_command_arguments_rejected envW cfgW Option.none "m" " ").2 (by decide)⟩

theorem discover_loop_eq (env : Env) (port : Nat) (hosts : List String) :
    discover_loop env port hosts = hosts.filterMap (probeHost env port) := by
  induction hosts with
  | nil => rfl
  | cons h t ih =>
    cases hp : probeHost env port h <;>
      simp [discover_loop, hp, List.filterMap_cons, ih]

/-- C7: TCP discovery returns a (finite) list in which the loopback and
all-zero hosts never appear; it is exactly the per-host filter-map of the
probe over the candidate hosts — a failing probe only drops its own host —
and every returned candidate passed the bare TCP connect and a full Device
Reader cycle whose result supplies its node details. -/
theorem tcp_discovery_best_effort (env : Env) (port : Nat)
    (d : DiscoveredTcpDevice) :
    (discover_tcp_devices env port =
       env.discoveryHosts.filterMap (probeHost env port)) ∧
    (d ∈ discover_tcp_devices env port →
       d.host ≠ "127.0.0.1" ∧ d.host ≠ "0.0.0.0" ∧ d.port = port ∧
       env.portOpen d.host port = true ∧
       ∃ dev, (read_meshtastic_device env (tcpProbeConfig d.host port)).1 = .ok dev ∧
         d.node = dev.node) := by
  have hloop : discover_tcp_devices env port =
      env.discoveryHosts.filterMap (probeHost env port) :=
    discover_loop_eq env port env.discoveryHosts
  refine ⟨hloop, ?_⟩
  intro hmem
  rw [hloop] at hmem
  obtain ⟨h, hin, hp⟩ := List.mem_filterMap.mp hmem
  unfold probeHost at hp
  by_cases hlb : h = "127.0.0.1" ∨ h = "0.0.0.0"
  · simp [hlb] at hp
  · rw [if_neg hlb] at hp
    push_neg at hlb
    cases hopen : env.portOpen h port with
    | false => simp [hopen] at hp
    | true =>
      simp only [hopen, Bool.not_true, if_false, Bool.false_eq_true] at hp
      cases hr : (read_meshtastic_device env (tcpProbeConfig h port)).1 with
      | error e => rw [hr] at hp; cases hp
      | ok dev =>
        rw [hr] at hp
        cases hp
        exact ⟨hlb.1, hlb.2, rfl, hopen, dev, hr, rfl⟩

/-- Discovery fixture: loopback host, one reachable radio, one host whose
probe fails. -/
def envD : Env :=
  { discoveryHosts := ["127.0.0.1", "10.0.0.7", "10.0.0.8"],
    portOpen := fun h _ => h == "10.0.0.7" || h == "10.0.0.8",
    tcpIface := fun h _ => if h == "10.0.0.7" then .ok ifaceW else .error "refused" }

/-- The discovery result for the reachable radio in `envD`. -/
def dW : DiscoveredTcpDevice :=
  { host := "10.0.0.7", port := 4403, node := some (_read_node_details {}) }

/-- C7 witness: at `envD` the scan skips the loopback host and the failing
host `10.0.0.8` and returns exactly the reachable candidate, which passed
the TCP probe and a full Device Reader cycle. -/
theorem tcp_discovery_best_effort_witness :
    discover_tcp_devices envD 4403 = [dW] ∧
    dW ∈ discover_tcp_devices envD 4403 ∧
    (dW.host ≠ "127.0.0.1" ∧ dW.host ≠ "0.0.0.0" ∧ dW.port = 4403 ∧
     envD.portOpen dW.host 4403 = true ∧
     ∃ dev, (read_meshtastic_device envD (tcpProbeConfig dW.host 4403)).1 = .ok dev ∧
       dW.node = dev.node) :=
  ⟨by decide, by decide, (tcp_discovery_best_effort envD 4403 dW).2 (by decide)⟩

/-- C8 (amended): `MeshtasticNodeDetails.as_dict` omits exactly the values
`in (None, [], "")` and keeps every other field under its own key;
`UsbDevice.as_dict` omits only `None` values (empty strings are retained). -/
theorem as_dict_omits_absent_and_empty
    (d : MeshtasticNodeDetails) (u : UsbDevice) (kv kw : String × PyVal) :
    (kv ∈ d.as_dict → isNoneEmptyListOrEmptyStr kv.2 = false) ∧
    (kv ∈ d.fieldPairs → isNoneEmptyListOrEmptyStr kv.2 = false → kv ∈ d.as_dict) ∧
    (kw ∈ u.as_dict → kw.2 ≠ PyVal.none) ∧
    (kw ∈ u.fieldPairs → kw.2 ≠ PyVal.none → kw ∈ u.as_dict) := by
  refine ⟨?_, ?_, ?_, ?_⟩
  · intro h
    have h2 := (List.mem_filter.mp h).2
    simpa using h2
  · intro h1 h2
    exact List.mem_filter.mpr ⟨h1, by simp [h2]⟩
  · intro h
    have h2 := (List.mem_filter.mp h).2
    simpa using h2
  · intro h1 h2
    exact List.mem_filter.mpr ⟨h1, by simpa using h2⟩

/-- The USB record that falsifies C8 as stated: a present-but-empty
description string. -/
def usbC8 : UsbDevice := { device := "/dev/ttyUSB0", description := some "" }

/-- C8 counterexample: `UsbDevice.as_dict` keeps the `description` key even
though its value is the empty string, refuting the claim that the
serialized views contain no empty-string values. -/
theorem usb_as_dict_keeps_empty_string :
    usbC8.description = some "" ∧
    ("description", PyVal.str "") ∈ usbC8.as_dict := by decide

/-- A node-details value with one populated field. -/
def ndW : MeshtasticNodeDetails := { firmware := .str "2.3.2" }

/-- C8 witness: a present non-empty field appears in the node serialization,
and a present field appears in the USB serialization. -/
theorem as_dict_omits_absent_and_empty_witness :
    ("firmware", PyVal.str "2.3.2") ∈ ndW.as_dict ∧
    ("device", PyVal.str "/dev/ttyUSB0") ∈ usbC8.as_dict :=
  ⟨(as_dict_omits_absent_and_empty ndW usbC8 ("firmware", .str "2.3.2")
      ("device", .str "/dev/ttyUSB0")).2.1 (by decide) (by decide),
   (as_dict_omits_absent_and_empty ndW usbC8 ("firmware", .str "2.3.2")
      ("device", .str "/dev/ttyUSB0")).2.2.2 (by decide) (by decide)⟩

/-- C10: the normalizer always sets `route_table_size` to the number of
entries in the interface's node mapping (`0` when it is empty), so it is
never absent, and the serialized view always contains the
`route_table_size` key. -/
theorem route_table_size_always_present (st : InterfaceState) :
    (_read_node_details st).route_table_size = PyVal.int st.nodes.length ∧
    (_read_node_details st).route_table_size ≠ PyVal.none ∧
    ("route_table_size", PyVal.int st.nodes.length) ∈ (_read_node_details st).as_dict := by
  have h1 : (_read_node_details st).route_table_size = PyVal.int st.nodes.length := rfl
  refine ⟨h1, by rw [h1]; simp, ?_⟩
  refine List.mem_filter.mpr ⟨?_, ?_⟩
  · rw [← h1]
    simp [MeshtasticNodeDetails.fieldPairs]
  · simp [isNoneEmptyListOrEmptyStr]

/-- The metrics block the normalizer reads
(`my_info_dict.get("node_metrics") or {}`). -/
def metricsOf (st : InterfaceState) : PyDict :=
  dictOrEmpty (pyGet (_protobuf_to_dict st.my_info) "node_metrics")

/-- The rssi alias chain of the normalizer (a Python `or` chain). -/
def rssiChain (st : InterfaceState) : PyVal :=
  pyOr (pyGet (metricsOf st) "rssi")
    (pyOr (pyGet (metricsOf st) "rx_rssi") (pyGet (metricsOf st) "last_heard_rssi"))

/-- The snr alias chain of the normalizer. -/
def snrChain (st : InterfaceState) : PyVal :=
  pyOr (pyGet (metricsOf st) "snr")
    (pyOr (pyGet (metricsOf st) "rx_snr") (pyGet (metricsOf st) "last_heard_snr"))

theorem read_rssi_of_chain_truthy (st : InterfaceState)
    (h : (rssiChain st).truthy = true) :
    (_read_node_details st).rssi = rssiChain st := by
  show (if _ then _ else (rssiChain st, snrChain st)).1 = rssiChain st
  split
  · dsimp only
    split
    · exact pyOr_of_truthy _ _ h
    · rfl
  · rfl

theorem read_snr_of_chain_truthy (st : InterfaceState)
    (h : (snrChain st).truthy = true) :
    (_read_node_details st).snr = snrChain st := by
  show (if _ then _ else (rssiChain st, snrChain st)).2 = snrChain st
  split
  · dsimp only
    split
    · exact pyOr_of_truthy _ _ h
    · rfl
  · rfl

/-- C3 (amended): in the normalizer the alias chains are Python `or` chains,
so the first *truthy* (not merely present) value wins, in the fixed orders
rssi, rx_rssi, last_heard_rssi / snr, rx_snr, last_heard_snr /
air_util_tx, air_util, airtime: a truthy `rssi` value wins over `rx_rssi`;
with `rssi` absent or falsy, a truthy `rx_rssi` is used, then a truthy
`last_heard_rssi`; analogously for snr, and the airtime chain verbatim. -/
theorem alias_resolution_first_truthy (st : InterfaceState) :
    ((pyGet (metricsOf st) "rssi").truthy = true →
       (_read_node_details st).rssi = pyGet (metricsOf st) "rssi") ∧
    ((pyGet (metricsOf st) "rssi").truthy = false →
     (pyGet (metricsOf st) "rx_rssi").truthy = true →
       (_read_node_details st).rssi = pyGet (metricsOf st) "rx_rssi") ∧
    ((pyGet (metricsOf st) "rssi").truthy = false →
     (pyGet (metricsOf st) "rx_rssi").truthy = false →
     (pyGet (metricsOf st) "last_heard_rssi").truthy = true →
       (_read_node_details st).rssi = pyGet (metricsOf st) "last_heard_rssi") ∧
    ((pyGet (metricsOf st) "snr").truthy = true →
       (_read_node_details st).snr = pyGet (metricsOf st) "snr") ∧
    ((pyGet (metricsOf st) "snr").truthy = false →
     (pyGet (metricsOf st) "rx_snr").truthy = true →
       (_read_node_details st).snr = pyGet (metricsOf st) "rx_snr") ∧
    ((pyGet (metricsOf st) "snr").truthy = false →
     (pyGet (metricsOf st) "rx_snr").truthy = false →
     (pyGet (metricsOf st) "last_heard_snr").truthy = true →
       (_read_node_details st).snr = pyGet (metricsOf st) "last_heard_snr") ∧
    ((_read_node_details st).airtime_utilization =
       pyOr (pyGet (metricsOf st) "air_util_tx")
         (pyOr (pyGet (metricsOf st) "air_util") (pyGet (metricsOf st) "airtime"))) := by
  refine ⟨?_, ?_, ?_, ?_, ?_, ?_, rfl⟩
  · intro h
    have hc : rssiChain st = pyGet (metricsOf st) "rssi" := pyOr_of_truthy _ _ h
    rw [read_rssi_of_chain_truthy st (by rw [hc]; exact h), hc]
  · intro h1 h2
    have hc : rssiChain st = pyGet (metricsOf st) "rx_rssi" := by
      rw [rssiChain, pyOr_of_falsy _ _ h1, pyOr_of_truthy _ _ h2]
    rw [read_rssi_of_chain_truthy st (by rw [hc]; exact h2), hc]
  · intro h1 h2 h3
    have hc : rssiChain st = pyGet (metricsOf st) "last_heard_rssi" := by
      rw [rssiChain, pyOr_of_falsy _ _ h1, pyOr_of_falsy _ _ h2]
    rw [read_rssi_of_chain_truthy st (by rw [hc]; exact h3), hc]
  · intro h
    have hc : snrChain st = pyGet (metricsOf st) "snr" := pyOr_of_truthy _ _ h
    rw [read_snr_of_chain_truthy st (by rw [hc]; exact h), hc]
  · intro h1 h2
    have hc : snrChain st = pyGet (metricsOf st) "rx_snr" := by
      rw [snrChain, pyOr_of_falsy _ _ h1, pyOr_of_truthy _ _ h2]
    rw [read_snr_of_chain_truthy st (by rw [hc]; exact h2), hc]
  · intro h1 h2 h3
    have hc : snrChain st = pyGet (metricsOf st) "last_heard_snr" := by
      rw [snrChain, pyOr_of_falsy _ _ h1, pyOr_of_falsy _ _ h2]
    rw [read_snr_of_chain_truthy st (by rw [hc]; exact h3), hc]

/-- A metrics block holding both `rssi` (stored value `0`) and `rx_rssi`. -/
def stC3 : InterfaceState :=
  { my_info := .dict (.cons "node_metrics"
      (.dict (.cons "rssi" (.int 0) (.cons "rx_rssi" (.int (-80)) .nil))) .nil) }

/-- C3 counterexample: both the `rssi` and `rx_rssi` keys are present, yet
the stored `rssi` value (`0`, falsy) does not win — the normalizer resolves
rssi to the `rx_rssi` value, refuting "the value stored under rssi wins
whatever their stored values" and the "first non-absent" reading. -/
theorem alias_resolution_counterexample :
    (metricsOf stC3).hasKey "rssi" = true ∧
    (metricsOf stC3).hasKey "rx_rssi" = true ∧
    pyGet (metricsOf stC3) "rssi" = PyVal.int 0 ∧
    (_read_node_details stC3).rssi = PyVal.int (-80) ∧
    (_read_node_details stC3).rssi ≠ pyGet (metricsOf stC3) "rssi" := by decide

/-- A metrics block with a truthy `rssi` alongside `rx_rssi`, and one with
only `rx_rssi`. -/
def stC3w : InterfaceState :=
  { my_info := .dict (.cons "node_metrics"
      (.dict (.cons "rssi" (.int (-70)) (.cons "rx_rssi" (.int (-80)) .nil))) .nil) }

/-- Metrics block containing only `rx_rssi`. -/
def stC3x : InterfaceState :=
  { my_info := .dict (.cons "node_metrics"
      (.dict (.cons "rx_rssi" (.int (-81)) .nil)) .nil) }

/-- C3 witness: a truthy `rssi` wins over `rx_rssi`, and with only
`rx_rssi` present the rssi field resolves to it. -/
theorem alias_resolution_first_truthy_witness :
    (_read_node_details stC3w).rssi = pyGet (metricsOf stC3w) "rssi" ∧
    (_read_node_details stC3x).rssi = pyGet (metricsOf stC3x) "rx_rssi" :=
  ⟨(alias_resolution_first_truthy stC3w).1 (by decide),
   (alias_resolution_first_truthy stC3x).2.1 (by decide) (by decide)⟩

/-- The node-table entry for the node's own number, as both fallbacks read
it (`_protobuf_to_dict(nodes.get(my_node_num))`). -/
def ownNodeDict (st : InterfaceState) : PyDict :=
  _protobuf_to_dict
    (assocGet st.nodes (pyGet (_protobuf_to_dict st.my_info) "my_node_num"))

/-- The transport state on which the two generations disagree: no metrics
block, and a node-table entry for the own node carrying `snr`, `rx_rssi`
and `rx_snr`. -/
def stC9 : InterfaceState :=
  { my_info := .dict (.cons "my_node_num" (.int 5) .nil),
    nodes := [(.int 5, .dict (.cons "snr" (.float 7)
      (.cons "rx_rssi" (.float (-80)) (.cons "rx_snr" (.float 3) .nil))))] }

/-- C9 counterexample: on `stC9` the older scanner resolves both rssi and
snr from the node entry's `snr` field (`7`), while the newer normalizer
reads `rx_rssi` (`-80`) and `rx_snr` (`3`) — the two generations do not
agree on the fallback path. -/
theorem generations_disagree_counterexample :
    (coord_read_meshtastic_details stC9).rssi = PyVal.float 7 ∧
    (coord_read_meshtastic_details stC9).snr = PyVal.float 7 ∧
    (_read_node_details stC9).rssi = PyVal.float (-80) ∧
    (_read_node_details stC9).snr = PyVal.float 3 ∧
    (coord_read_meshtastic_details stC9).rssi ≠ (_read_node_details stC9).rssi ∧
    (coord_read_meshtastic_details stC9).snr ≠ (_read_node_details stC9).snr := by
  decide

/-- C9 (amended): the two generations agree on rssi and snr whenever the
node-table fallback is not reached (both alias chains resolve non-`None`),
and on the fallback path whenever the node entry's `snr` field is absent or
falsy; when that fallback entry has a truthy `snr`, the older scanner uses
it (for both fields) while the newer one reads `rx_rssi`/`rx_snr`. -/
theorem generations_agree_conditionally (st : InterfaceState) :
    ((pyGet (ownNodeDict st) "snr").truthy = false →
       (coord_read_meshtastic_details st).rssi = (_read_node_details st).rssi ∧
       (coord_read_meshtastic_details st).snr = (_read_node_details st).snr) ∧
    (rssiChain st ≠ PyVal.none → snrChain st ≠ PyVal.none →
       (coord_read_meshtastic_details st).rssi = (_read_node_details st).rssi ∧
       (coord_read_meshtastic_details st).snr = (_read_node_details st).snr) := by
  constructor
  · intro hs
    have hs' : (pyGet (_protobuf_to_dict
        (assocGet st.nodes (pyGet (_protobuf_to_dict st.my_info) "my_node_num")))
          "snr").truthy = false := hs
    constructor
    · simp only [coord_read_meshtastic_details, _read_node_details]
      split
      · split
        · simp only [pyOr_of_falsy _ _ hs']
        · rfl
      · rfl
    · simp only [coord_read_meshtastic_details, _read_node_details]
      split
      · split
        · simp only [pyOr_of_falsy _ _ hs']
        · rfl
      · rfl
  · intro h1 h2
    have hg : ¬((rssiChain st = PyVal.none ∨ snrChain st = PyVal.none) ∧
        st.nodes ≠ []) := by
      rintro ⟨h | h, -⟩
      · exact h1 h
      · exact h2 h
    constructor
    · simp only [coord_read_meshtastic_details, _read_node_details]
      split
      · exact absurd ‹_› hg
      · rfl
    · simp only [coord_read_meshtastic_details, _read_node_details]
      split
      · exact absurd ‹_› hg
      · rfl

/-- A state whose fallback entry lacks a `snr` field. -/
def stC9w : InterfaceState :=
  { my_info := .dict (.cons "my_node_num" (.int 5) .nil),
    nodes := [(.int 5, .dict (.cons "rx_rssi" (.float (-80))
      (.cons "rx_snr" (.float 3) .nil)))] }

/-- C9 witness: with the fallback entry's `snr` absent the two generations
agree on the concrete state `stC9w`. -/
theorem generations_agree_conditionally_witness :
    (coord_read_meshtastic_details stC9w).rssi = (_read_node_details stC9w).rssi ∧
    (coord_read_meshtastic_details stC9w).snr = (_read_node_details stC9w).snr :=
  (generations_agree_conditionally stC9w).1 (by decide)
